import Mathlib

/-!
Shallow embedding of `src/source/layer/binocular/convolution.cpp`
(KuiperInfer convolution layer): the `ConvolutionLayer` constructor,
`ConvolutionLayer::Forward`, and `ConvolutionLayer::GetInstance`.

Conventions of the embedding:
* `float`/`double` values are modelled as rationals (`ℚ`); the arithmetic
  exercised by the specification's test vectors is exact, so no rounding
  is involved.
* `uint32_t` arithmetic is modelled as `Nat` arithmetic reduced modulo
  `2^32` exactly where the C++ computes in `uint32_t` (the output-size
  computation `(input_h - kernel_h) / stride_ + 1`).
* a 3-D tensor is a shape triple plus a total valuation function;
  out-of-shape indices are never produced by the modelled code paths that
  terminate normally in C++.
* `Forward`'s mutation of the caller's vectors (in-place padding of the
  input tensors through their shared pointers, `push_back` on `outputs`)
  is modelled by returning the post-call input list and output list next
  to the status.
-/

/-- Width of the C++ `uint32_t` type, `2^32`. -/
def U32 : Nat := 4294967296

/-- Wrapping `uint32_t` subtraction `a - b` for `a b : Nat` (the C++
`input_h - kernel_h` where both operands are `uint32_t`). -/
def u32sub (a b : Nat) : Nat := (a % U32 + (U32 - b % U32)) % U32

/-- A 3-dimensional dense tensor addressed as (channel, row, column).
`data` is a total valuation; only indices inside the shape are meaningful. -/
structure Tensor where
  channels : Nat
  rows : Nat
  cols : Nat
  data : Nat → Nat → Nat → ℚ

/-- A freshly allocated tensor of the given shape, all values zero
(`arma` containers are zero-initialized in the modelled code). -/
def zeroTensor (ch r c : Nat) : Tensor :=
  { channels := ch, rows := r, cols := c, data := fun _ _ _ => 0 }

/-- Modelled from the spec: `Tensor::Padding({p, p, p, p}, 0)` of the tensor
container (external collaborator, §6 of the spec; its definition is not under
`src/`): pads all four spatial edges with `p` zero-valued cells, growing
height and width by `2*p` each; original values keep their relative position. -/
def Tensor.Padding (t : Tensor) (p : Nat) : Tensor :=
  { channels := t.channels
    rows := t.rows + 2 * p
    cols := t.cols + 2 * p
    data := fun ch r c =>
      if p ≤ r ∧ r < t.rows + p ∧ p ≤ c ∧ c < t.cols + p then
        t.data ch (r - p) (c - p)
      else 0 }

/-- The `InferStatus` values returned by `ConvolutionLayer::Forward`. -/
inductive InferStatus where
  | kInferSuccess
  | kInferFailedInputEmpty
  | kInferFailedWeightParameterError
  | kInferFailedBiasParameterError
  | kInferFailedOutputSizeError
  | kInferFailedChannelParameterError
deriving DecidableEq

/-- The state of a `ConvolutionLayer` instance. -/
structure ConvolutionLayer where
  padding : Nat
  stride : Nat
  use_bias : Bool
  weights : List Tensor
  bias : List Tensor

/-- The `ConvolutionLayer` constructor: allocates `output_channel` weight
tensors of shape `(in_channel, kernel_h, kernel_w)` and, when `use_bias`,
one `(1,1,1)` bias tensor per weight tensor. -/
def ConvolutionLayer.construct (output_channel in_channel kernel_h kernel_w
    padding stride : Nat) (use_bias : Bool) : ConvolutionLayer :=
  { padding := padding
    stride := stride
    use_bias := use_bias
    weights := List.replicate output_channel (zeroTensor in_channel kernel_h kernel_w)
    bias := if use_bias then List.replicate output_channel (zeroTensor 1 1 1) else [] }

/-- Left-to-right sum `f 0 + f 1 + ... + f (n-1)`, the accumulation order of
the C++ loops. -/
def sumRange (n : Nat) (f : Nat → ℚ) : ℚ :=
  match n with
  | 0 => 0
  | m + 1 => sumRange m f + f m

/-- The input tensor as `Forward` leaves it: padded in place when
`padding_ > 0`, untouched otherwise. -/
def paddedInput (layer : ConvolutionLayer) (inp : Tensor) : Tensor :=
  if layer.padding > 0 then inp.Padding layer.padding else inp

/-- The C++ output-size computation
`uint32_t(std::floor((input_h - kernel_h) / stride_ + 1))`:
wrapping `uint32_t` subtraction, `uint32_t` division, wrapping `+ 1`. -/
def outDim (inDim kDim stride : Nat) : Nat :=
  (u32sub inDim kDim / stride + 1) % U32

/-- The per-kernel checks of the `k` loop in `Forward`, in source order:
for each weight kernel, first the output-size test
(`output_h <= 0 || output_w <= 0`, which for `uint32_t` values holds exactly
when the value is `0`), then the channel test. Returns the first failure. -/
def itemCheck (stride ih iw ic : Nat) : List Tensor → Option InferStatus
  | [] => none
  | kern :: rest =>
    if outDim ih kern.rows stride = 0 ∨ outDim iw kern.cols stride = 0 then
      some InferStatus.kInferFailedOutputSizeError
    else if kern.channels ≠ ic then
      some InferStatus.kInferFailedChannelParameterError
    else itemCheck stride ih iw ic rest

/-- The convolution contribution to output cell `(k, r, c)`: the window sum
`arma::accu(region % kernel_channel)` accumulated over the input channels,
for the window with top-left corner `(r * stride, c * stride)`; zero when the
window would not fit (the loop bound `r < input_h - kernel_h + 1` excludes
that position). -/
def convPart (layer : ConvolutionLayer) (p : Tensor) (k r c : Nat) : ℚ :=
  let kern := layer.weights.getD k (zeroTensor 0 0 0)
  if r * layer.stride + kern.rows ≤ p.rows ∧ c * layer.stride + kern.cols ≤ p.cols then
    sumRange p.channels (fun ic =>
      sumRange kern.rows (fun i =>
        sumRange kern.cols (fun j =>
          p.data ic (r * layer.stride + i) (c * layer.stride + j) * kern.data ic i j)))
  else 0

/-- The bias contribution to output channel `k`: the scalar
`bias->data().front()` added to the whole output plane when
`!bias_.empty() && use_bias_`. -/
def biasPart (layer : ConvolutionLayer) (k : Nat) : ℚ :=
  if layer.use_bias = true ∧ layer.bias.isEmpty = false then
    (layer.bias.getD k (zeroTensor 0 0 0)).data 0 0 0
  else 0

/-- The output tensor `Forward` allocates and fills for one input item:
shape `(kernel_count, output_h, output_w)` with the spatial dimensions
computed from the first weight kernel (the allocation happens at `k = 0`). -/
def itemOutput (layer : ConvolutionLayer) (p : Tensor) : Tensor :=
  let k0 := layer.weights.headD (zeroTensor 0 0 0)
  let oh := outDim p.rows k0.rows layer.stride
  let ow := outDim p.cols k0.cols layer.stride
  { channels := layer.weights.length
    rows := oh
    cols := ow
    data := fun k r c =>
      if k < layer.weights.length ∧ r < oh ∧ c < ow then
        convPart layer p k r c + biasPart layer k
      else 0 }

/-- The per-item batch loop of `Forward`: each item is padded in place, then
checked kernel-by-kernel; on the first failing check the call returns with
the items processed so far (the failing item contributes no output), else the
item's output tensor is appended. Returns
`(status, input list as left by the call, outputs produced by the call)`. -/
def forwardBatch (layer : ConvolutionLayer) : List Tensor → InferStatus × List Tensor × List Tensor
  | [] => (InferStatus.kInferSuccess, [], [])
  | inp :: rest =>
    let p := paddedInput layer inp
    match itemCheck layer.stride p.rows p.cols p.channels layer.weights with
    | some err => (err, p :: rest, [])
    | none =>
      let r := forwardBatch layer rest
      (r.1, p :: r.2.1, itemOutput layer p :: r.2.2)

/-- `ConvolutionLayer::Forward(inputs, outputs)`: the three entry checks in
source order (empty inputs, empty weights, bias/weight length mismatch when
`use_bias_`), then the batch loop. Returns the status, the input list as the
call leaves it, and the `outputs` vector after the call (`push_back` appends
to whatever the caller passed in). -/
def ConvolutionLayer.Forward (layer : ConvolutionLayer) (inputs outputs : List Tensor) :
    InferStatus × List Tensor × List Tensor :=
  if inputs.isEmpty then
    (InferStatus.kInferFailedInputEmpty, inputs, outputs)
  else if layer.weights.isEmpty then
    (InferStatus.kInferFailedWeightParameterError, inputs, outputs)
  else if layer.use_bias = true ∧ layer.bias.length ≠ layer.weights.length then
    (InferStatus.kInferFailedBiasParameterError, inputs, outputs)
  else
    ((forwardBatch layer inputs).1, (forwardBatch layer inputs).2.1,
      outputs ++ (forwardBatch layer inputs).2.2)

/-- The tagged variants behind the `dynamic_cast` dispatch on
`RuntimeParameter` in `GetInstance` (`RuntimeParameterInt`,
`RuntimeParameterIntArray`, `RuntimeParameterBool`, and everything else). -/
inductive RuntimeParameter where
  | pInt (value : Int)
  | pIntArray (value : List Int)
  | pBool (value : Bool)
  | pOther

/-- A `RuntimeAttribute`: a shape and a numeric payload (`get<double>`). -/
structure RuntimeAttribute where
  shape : List Int
  values : List ℚ

/-- The `ParseParameterAttrStatus` values `GetInstance` can produce.
`kFatalCheckAbort` models a failed `CHECK(...)` assertion (the process
aborts; `GetInstance` returns no status in C++). -/
inductive ParseParameterAttrStatus where
  | kParameterMissingInChannel
  | kParameterMissingOutChannel
  | kParameterMissingPadding
  | kParameterMissingUseBias
  | kParameterMissingStride
  | kParameterMissingKernel
  | kParameterMissingAttrBias
  | kParameterMissingAttrWeight
  | kParameterParseSuccess
  | kFatalCheckAbort
deriving DecidableEq

/-- The `find`-then-`dynamic_cast<RuntimeParameterInt*>` pattern: `some`
exactly when the key was found and held an integer parameter. A missing key
and a mistyped value are indistinguishable to `GetInstance` (both paths
return the same status). -/
def asInt : Option RuntimeParameter → Option Int
  | some (RuntimeParameter.pInt v) => some v
  | _ => none

/-- The `find`-then-`dynamic_cast<RuntimeParameterIntArray*>` pattern. -/
def asIntArray : Option RuntimeParameter → Option (List Int)
  | some (RuntimeParameter.pIntArray v) => some v
  | _ => none

/-- The `find`-then-`dynamic_cast<RuntimeParameterBool*>` pattern. -/
def asBool : Option RuntimeParameter → Option Bool
  | some (RuntimeParameter.pBool v) => some v
  | _ => none

/-- Conversion of a C++ `int` to `uint32_t` (implicit modular conversion at
the constructor call). -/
def toU32 (v : Int) : Nat := (v % (U32 : Int)).toNat

/-- Modelled from the spec: the bias half of `ParamLayer::set_bias` (not under
`src/`): the flattened payload is distributed one scalar per `(1,1,1)` bias
tensor, in order, overwriting values only — shapes stay fixed (§3, §4.2). -/
def setBiasFrom : Nat → List Tensor → List ℚ → List Tensor
  | _, [], _ => []
  | i, t :: ts, vals =>
    { t with data := fun _ _ _ => vals.getD i 0 } :: setBiasFrom (i + 1) ts vals

/-- Modelled from the spec: `ParamLayer::set_bias`. -/
def ConvolutionLayer.set_bias (layer : ConvolutionLayer) (vals : List ℚ) : ConvolutionLayer :=
  { layer with bias := setBiasFrom 0 layer.bias vals }

/-- Modelled from the spec: the distribution step of `ParamLayer::set_weights`
(not under `src/`): the flattened payload is distributed across the weight
tensors in (channel, row, column) row-major order, overwriting values only —
shapes stay fixed (§3, §4.2). `i` is the running offset into the payload. -/
def setWeightsFrom : Nat → List Tensor → List ℚ → List Tensor
  | _, [], _ => []
  | i, t :: ts, vals =>
    { t with data := fun ch r c =>
        vals.getD (i + ch * (t.rows * t.cols) + r * t.cols + c) 0 }
      :: setWeightsFrom (i + t.channels * t.rows * t.cols) ts vals

/-- Modelled from the spec: `ParamLayer::set_weights`. -/
def ConvolutionLayer.set_weights (layer : ConvolutionLayer) (vals : List ℚ) : ConvolutionLayer :=
  { layer with weights := setWeightsFrom 0 layer.weights vals }

/-- The condition under which the bias-attribute phase of `GetInstance`
fails with `kParameterMissingAttrBias`: the `bias` attribute key is absent,
or its shape is empty, or `shape[0]` differs from the `out_channels`
parameter value. -/
def biasAttrBad (out_ch : Int) : Option RuntimeAttribute → Bool
  | none => true
  | some a => a.shape.isEmpty || a.shape.headD 0 != out_ch

/-- `ConvolutionLayer::GetInstance(op, conv_layer)`: validates the six
parameters in source order (each by map lookup plus `dynamic_cast`, sharing
one status per parameter for the missing and the mistyped case), `CHECK`s
that the three array parameters have length 2, constructs the layer from
`(out_channels, in_channels, kernel[0], kernel[1], padding[0], stride[0],
use_bias)`, then validates and loads the `bias` and `weight` attributes.
The returned `Option ConvolutionLayer` is the `conv_layer` out-parameter:
it is set as soon as the constructor has run, even when a later attribute
check fails. -/
def ConvolutionLayer.GetInstance (params : List (String × RuntimeParameter))
    (attrs : List (String × RuntimeAttribute)) :
    ParseParameterAttrStatus × Option ConvolutionLayer :=
  match asInt (params.lookup "in_channels") with
  | none => (ParseParameterAttrStatus.kParameterMissingInChannel, none)
  | some in_ch =>
  match asInt (params.lookup "out_channels") with
  | none => (ParseParameterAttrStatus.kParameterMissingOutChannel, none)
  | some out_ch =>
  match asIntArray (params.lookup "padding") with
  | none => (ParseParameterAttrStatus.kParameterMissingPadding, none)
  | some paddings =>
  match asBool (params.lookup "bias") with
  | none => (ParseParameterAttrStatus.kParameterMissingUseBias, none)
  | some use_bias =>
  match asIntArray (params.lookup "stride") with
  | none => (ParseParameterAttrStatus.kParameterMissingStride, none)
  | some strides =>
  match asIntArray (params.lookup "kernel_size") with
  | none => (ParseParameterAttrStatus.kParameterMissingKernel, none)
  | some kernels =>
  if ¬ (kernels.length = 2 ∧ strides.length = 2 ∧ paddings.length = 2) then
    (ParseParameterAttrStatus.kFatalCheckAbort, none)
  else
    let layer := ConvolutionLayer.construct (toU32 out_ch) (toU32 in_ch)
      (toU32 (kernels.headD 0)) (toU32 (kernels.getD 1 0))
      (toU32 (paddings.headD 0)) (toU32 (strides.headD 0)) use_bias
    match attrs.lookup "bias" with
    | none => (ParseParameterAttrStatus.kParameterMissingAttrBias, some layer)
    | some battr =>
      if battr.shape.isEmpty || battr.shape.headD 0 != out_ch then
        (ParseParameterAttrStatus.kParameterMissingAttrBias, some layer)
      else
        let layer2 := layer.set_bias battr.values
        match attrs.lookup "weight" with
        | none => (ParseParameterAttrStatus.kParameterMissingAttrWeight, some layer2)
        | some wattr =>
          if wattr.shape.isEmpty then
            (ParseParameterAttrStatus.kParameterMissingAttrWeight, some layer2)
          else
            (ParseParameterAttrStatus.kParameterParseSuccess,
              some (layer2.set_weights wattr.values))

/-- The shape invariants of §3 of the spec for a layer built with
`(oc, ic, kh, kw, _, _, ub)`: `weights` has length `oc`, every weight tensor
has shape `(ic, kh, kw)`; when `ub` the bias list matches the weight list in
length with every bias tensor of shape `(1,1,1)`, otherwise it is empty. -/
def layerInv (oc ic kh kw : Nat) (ub : Bool) (L : ConvolutionLayer) : Prop :=
  L.weights.length = oc ∧
  (∀ w ∈ L.weights, w.channels = ic ∧ w.rows = kh ∧ w.cols = kw) ∧
  (ub = true → L.bias.length = L.weights.length ∧
    ∀ b ∈ L.bias, b.channels = 1 ∧ b.rows = 1 ∧ b.cols = 1) ∧
  (ub = false → L.bias = [])

/-! Concrete instances used to evaluate the definitions on explicit inputs. -/

/-- A 1-channel 1×1 input holding the value 3. -/
def c1Input : Tensor := { channels := 1, rows := 1, cols := 1, data := fun _ _ _ => 3 }

/-- A layer with one 1×1×1 kernel, `padding = 1`, `stride = 1`, no bias. -/
def c1Layer : ConvolutionLayer := ConvolutionLayer.construct 1 1 1 1 1 1 false

/-- A layer with one 1×1×1 kernel, `padding = 0`, `stride = 1`, no bias. -/
def c1wLayer : ConvolutionLayer := ConvolutionLayer.construct 1 1 1 1 0 1 false

/-- A 2-channel 2×2 input: channel count and spatial size both clash with
`c2Layer`'s 3×3×3 kernel. -/
def c2Input : Tensor := { channels := 2, rows := 2, cols := 2, data := fun _ _ _ => 0 }

/-- A layer with one 3×3×3 kernel (3 input channels), `padding = 0`,
`stride = 1`, no bias. -/
def c2Layer : ConvolutionLayer := ConvolutionLayer.construct 1 3 3 3 0 1 false

/-- A 1-channel 1×1 input: post-padding height 1 is smaller than the kernel
height 3 of `c3Layer`. -/
def c3Input : Tensor := { channels := 1, rows := 1, cols := 1, data := fun _ _ _ => 0 }

/-- A layer with one 1×3×3 kernel, `padding = 0`, `stride = 1`, no bias. -/
def c3Layer : ConvolutionLayer := ConvolutionLayer.construct 1 1 3 3 0 1 false

/-- A 2-channel 1×1 input, compatible with `c4Layer`. -/
def c4Input1 : Tensor := { channels := 2, rows := 1, cols := 1, data := fun _ _ _ => 1 }

/-- A 3-channel 1×1 input, channel-mismatched against `c4Layer`. -/
def c4Input2 : Tensor := { channels := 3, rows := 1, cols := 1, data := fun _ _ _ => 1 }

/-- A layer with one 2×1×1 kernel (2 input channels), `padding = 0`,
`stride = 1`, no bias. -/
def c4Layer : ConvolutionLayer := ConvolutionLayer.construct 1 2 1 1 0 1 false

/-- A 1-channel 5×5 input (the spec's `H = 5` test vector). -/
def c5wInput : Tensor := { channels := 1, rows := 5, cols := 5, data := fun _ _ _ => 0 }

/-- A layer with one 1×3×3 kernel, `padding = 0`, `stride = 1`, no bias. -/
def c5wLayer : ConvolutionLayer := ConvolutionLayer.construct 1 1 3 3 0 1 false

/-- A 1-channel 1×1 input holding the value 3 (the spec's scalar test). -/
def c6Input : Tensor := { channels := 1, rows := 1, cols := 1, data := fun _ _ _ => 3 }

/-- The spec's scalar layer: one 1×1×1 kernel with weight 2 and bias 1,
`padding = 0`, `stride = 1`, `use_bias = true`. -/
def c6Layer : ConvolutionLayer :=
  ((ConvolutionLayer.construct 1 1 1 1 0 1 true).set_bias [1]).set_weights [2]

/-- A fully valid parameter map for `GetInstance` (all six parameters present
with the expected variants; `bias` is `false`). -/
def c9wParams : List (String × RuntimeParameter) :=
  [("in_channels", RuntimeParameter.pInt 1),
   ("out_channels", RuntimeParameter.pInt 1),
   ("padding", RuntimeParameter.pIntArray [0, 0]),
   ("bias", RuntimeParameter.pBool false),
   ("stride", RuntimeParameter.pIntArray [1, 1]),
   ("kernel_size", RuntimeParameter.pIntArray [3, 3])]

/-- A pre-existing element of the caller's `outputs` vector. -/
def c10wOld : Tensor := zeroTensor 1 2 2

/-! Helper lemmas about the embedding. -/

theorem paddedInput_rows (layer : ConvolutionLayer) (t : Tensor) :
    (paddedInput layer t).rows = t.rows + 2 * layer.padding := by
  unfold paddedInput
  split
  · rfl
  · next h => omega

theorem paddedInput_cols (layer : ConvolutionLayer) (t : Tensor) :
    (paddedInput layer t).cols = t.cols + 2 * layer.padding := by
  unfold paddedInput
  split
  · rfl
  · next h => omega

theorem paddedInput_channels (layer : ConvolutionLayer) (t : Tensor) :
    (paddedInput layer t).channels = t.channels := by
  unfold paddedInput
  split <;> rfl

theorem paddedInput_of_zero (layer : ConvolutionLayer) (hp : layer.padding = 0) (t : Tensor) :
    paddedInput layer t = t := by
  simp [paddedInput, hp]

theorem u32sub_of_le {a b : Nat} (hba : b ≤ a) (ha : a < U32) : u32sub a b = a - b := by
  unfold u32sub
  have hb : b < U32 := lt_of_le_of_lt hba ha
  rw [Nat.mod_eq_of_lt ha, Nat.mod_eq_of_lt hb]
  have h1 : a + (U32 - b) = (a - b) + U32 := by omega
  rw [h1, Nat.add_mod_right, Nat.mod_eq_of_lt (by omega)]

theorem outDim_eq {n kd s : Nat} (hk : 0 < kd) (hle : kd ≤ n) (hn : n < U32) :
    outDim n kd s = (n - kd) / s + 1 := by
  unfold outDim
  rw [u32sub_of_le hle hn]
  have h1 : (n - kd) / s ≤ n - kd := Nat.div_le_self _ _
  have h3 : n - kd + 1 ≤ n := by omega
  have h4 : (n - kd) / s + 1 ≤ n - kd + 1 := Nat.succ_le_succ h1
  exact Nat.mod_eq_of_lt (lt_of_le_of_lt (le_trans h4 h3) hn)

theorem outDim_ne_zero {n kd s : Nat} (hk : 0 < kd) (hle : kd ≤ n) (hn : n < U32) :
    outDim n kd s ≠ 0 := by
  rw [outDim_eq hk hle hn]
  exact Nat.succ_ne_zero _

theorem itemCheck_replicate (stride ih iw ic : Nat) (k : Tensor) :
    ∀ n, outDim ih k.rows stride ≠ 0 → outDim iw k.cols stride ≠ 0 → k.channels = ic →
      itemCheck stride ih iw ic (List.replicate n k) = none
  | 0, _, _, _ => rfl
  | n + 1, h1, h2, h3 => by
    rw [List.replicate_succ]
    unfold itemCheck
    rw [if_neg (by tauto), if_neg (by simp [h3])]
    exact itemCheck_replicate stride ih iw ic k n h1 h2 h3

theorem itemCheck_cons_size (stride ih iw ic : Nat) (k0 : Tensor) (ks : List Tensor)
    (h : outDim ih k0.rows stride = 0 ∨ outDim iw k0.cols stride = 0) :
    itemCheck stride ih iw ic (k0 :: ks) = some InferStatus.kInferFailedOutputSizeError := by
  unfold itemCheck
  rw [if_pos h]

theorem itemCheck_cons_channel (stride ih iw ic : Nat) (k0 : Tensor) (ks : List Tensor)
    (h1 : outDim ih k0.rows stride ≠ 0) (h2 : outDim iw k0.cols stride ≠ 0)
    (h3 : k0.channels ≠ ic) :
    itemCheck stride ih iw ic (k0 :: ks) = some InferStatus.kInferFailedChannelParameterError := by
  unfold itemCheck
  rw [if_neg (by tauto), if_pos h3]

theorem itemCheck_some_status (stride ih iw ic : Nat) :
    ∀ (ks : List Tensor) (e : InferStatus), itemCheck stride ih iw ic ks = some e →
      e = InferStatus.kInferFailedOutputSizeError ∨
        e = InferStatus.kInferFailedChannelParameterError
  | [], e, h => by simp [itemCheck] at h
  | k :: ks, e, h => by
    unfold itemCheck at h
    split at h
    · injection h with h2
      exact Or.inl h2.symm
    · split at h
      · injection h with h2
        exact Or.inr h2.symm
      · exact itemCheck_some_status stride ih iw ic ks e h

theorem forwardBatch_cons_err (layer : ConvolutionLayer) (inp : Tensor) (rest : List Tensor)
    (e : InferStatus)
    (h : itemCheck layer.stride (paddedInput layer inp).rows (paddedInput layer inp).cols
        (paddedInput layer inp).channels layer.weights = some e) :
    forwardBatch layer (inp :: rest) = (e, paddedInput layer inp :: rest, []) := by
  simp only [forwardBatch]
  rw [h]

theorem forwardBatch_cons_ok (layer : ConvolutionLayer) (inp : Tensor) (rest : List Tensor)
    (h : itemCheck layer.stride (paddedInput layer inp).rows (paddedInput layer inp).cols
        (paddedInput layer inp).channels layer.weights = none) :
    forwardBatch layer (inp :: rest) =
      ((forwardBatch layer rest).1,
        paddedInput layer inp :: (forwardBatch layer rest).2.1,
        itemOutput layer (paddedInput layer inp) :: (forwardBatch layer rest).2.2) := by
  simp only [forwardBatch]
  rw [h]

theorem forwardBatch_inputs_id (layer : ConvolutionLayer) (hp : layer.padding = 0) :
    ∀ l : List Tensor, (forwardBatch layer l).2.1 = l
  | [] => rfl
  | inp :: rest => by
    have hpi : paddedInput layer inp = inp := paddedInput_of_zero layer hp inp
    simp only [forwardBatch, hpi]
    split
    · rfl
    · simp [forwardBatch_inputs_id layer hp rest]

theorem forwardBatch_success_len (layer : ConvolutionLayer) :
    ∀ l : List Tensor, (forwardBatch layer l).1 = InferStatus.kInferSuccess →
      (forwardBatch layer l).2.2.length = l.length
  | [], _ => rfl
  | inp :: rest, h => by
    cases hc : itemCheck layer.stride (paddedInput layer inp).rows (paddedInput layer inp).cols
        (paddedInput layer inp).channels layer.weights with
    | some e =>
      rw [forwardBatch_cons_err layer inp rest e hc] at h
      rcases itemCheck_some_status _ _ _ _ _ _ hc with h2 | h2 <;> simp [h2] at h
    | none =>
      rw [forwardBatch_cons_ok layer inp rest hc] at h ⊢
      simp [forwardBatch_success_len layer rest h]

theorem Forward_eq_batch (layer : ConvolutionLayer) (inputs outputs : List Tensor)
    (hne : inputs.isEmpty = false) (hw : layer.weights.isEmpty = false)
    (hb : ¬ (layer.use_bias = true ∧ layer.bias.length ≠ layer.weights.length)) :
    ConvolutionLayer.Forward layer inputs outputs =
      ((forwardBatch layer inputs).1, (forwardBatch layer inputs).2.1,
        outputs ++ (forwardBatch layer inputs).2.2) := by
  simp [ConvolutionLayer.Forward, hne, hw, hb]

theorem setBiasFrom_length : ∀ (i : Nat) (ts : List Tensor) (vals : List ℚ),
    (setBiasFrom i ts vals).length = ts.length
  | _, [], _ => rfl
  | i, _ :: ts, vals => by
    simp only [setBiasFrom, List.length_cons]
    rw [setBiasFrom_length (i + 1) ts vals]

theorem setBiasFrom_shapes : ∀ (i : Nat) (ts : List Tensor) (vals : List ℚ)
    (t : Tensor), t ∈ setBiasFrom i ts vals →
      ∃ t0 ∈ ts, t.channels = t0.channels ∧ t.rows = t0.rows ∧ t.cols = t0.cols
  | _, [], _, t, h => by simp [setBiasFrom] at h
  | i, t1 :: ts, vals, t, h => by
    simp only [setBiasFrom, List.mem_cons] at h
    rcases h with h | h
    · exact ⟨t1, List.mem_cons_self t1 ts, by simp [h]⟩
    · rcases setBiasFrom_shapes (i + 1) ts vals t h with ⟨t0, ht0, hsh⟩
      exact ⟨t0, List.mem_cons_of_mem t1 ht0, hsh⟩

theorem setWeightsFrom_length : ∀ (i : Nat) (ts : List Tensor) (vals : List ℚ),
    (setWeightsFrom i ts vals).length = ts.length
  | _, [], _ => rfl
  | i, t1 :: ts, vals => by
    simp only [setWeightsFrom, List.length_cons]
    rw [setWeightsFrom_length (i + t1.channels * t1.rows * t1.cols) ts vals]

theorem setWeightsFrom_shapes : ∀ (i : Nat) (ts : List Tensor) (vals : List ℚ)
    (t : Tensor), t ∈ setWeightsFrom i ts vals →
      ∃ t0 ∈ ts, t.channels = t0.channels ∧ t.rows = t0.rows ∧ t.cols = t0.cols
  | _, [], _, t, h => by simp [setWeightsFrom] at h
  | i, t1 :: ts, vals, t, h => by
    simp only [setWeightsFrom, List.mem_cons] at h
    rcases h with h | h
    · exact ⟨t1, List.mem_cons_self t1 ts, by simp [h]⟩
    · rcases setWeightsFrom_shapes (i + t1.channels * t1.rows * t1.cols) ts vals t h with
        ⟨t0, ht0, hsh⟩
      exact ⟨t0, List.mem_cons_of_mem t1 ht0, hsh⟩

theorem layerInv_construct (oc ic kh kw p s : Nat) (ub : Bool) :
    layerInv oc ic kh kw ub (ConvolutionLayer.construct oc ic kh kw p s ub) := by
  unfold layerInv ConvolutionLayer.construct
  refine ⟨List.length_replicate oc _, ?_, ?_, ?_⟩
  · intro w hw
    rw [List.eq_of_mem_replicate hw]
    exact ⟨rfl, rfl, rfl⟩
  · intro hub
    simp only [hub, if_pos]
    refine ⟨by simp, ?_⟩
    intro b hb
    rw [List.eq_of_mem_replicate hb]
    exact ⟨rfl, rfl, rfl⟩
  · intro hub
    simp [hub]

theorem layerInv_set_bias (oc ic kh kw : Nat) (ub : Bool) (L : ConvolutionLayer)
    (bv : List ℚ) (h : layerInv oc ic kh kw ub L) :
    layerInv oc ic kh kw ub (L.set_bias bv) := by
  obtain ⟨h1, h2, h3, h4⟩ := h
  refine ⟨h1, h2, ?_, ?_⟩
  · intro hub
    obtain ⟨h5, h6⟩ := h3 hub
    refine ⟨?_, ?_⟩
    · simpa [ConvolutionLayer.set_bias, setBiasFrom_length] using h5
    · intro b hb
      rcases setBiasFrom_shapes 0 L.bias bv b hb with ⟨b0, hb0, hc, hr, hcc⟩
      rcases h6 b0 hb0 with ⟨g1, g2, g3⟩
      exact ⟨hc.trans g1, hr.trans g2, hcc.trans g3⟩
  · intro hub
    simp [ConvolutionLayer.set_bias, h4 hub, setBiasFrom]

theorem layerInv_set_weights (oc ic kh kw : Nat) (ub : Bool) (L : ConvolutionLayer)
    (wv : List ℚ) (h : layerInv oc ic kh kw ub L) :
    layerInv oc ic kh kw ub (L.set_weights wv) := by
  obtain ⟨h1, h2, h3, h4⟩ := h
  refine ⟨?_, ?_, ?_, h4⟩
  · simpa [ConvolutionLayer.set_weights, setWeightsFrom_length] using h1
  · intro w hw
    rcases setWeightsFrom_shapes 0 L.weights wv w hw with ⟨w0, hw0, hc, hr, hcc⟩
    rcases h2 w0 hw0 with ⟨g1, g2, g3⟩
    exact ⟨hc.trans g1, hr.trans g2, hcc.trans g3⟩
  · intro hub
    obtain ⟨h5, h6⟩ := h3 hub
    exact ⟨by simpa [ConvolutionLayer.set_weights, setWeightsFrom_length] using h5, h6⟩

/-! Claim theorems. -/

/-- Claim C1, counterexample to the claim as stated: with `padding = 1` the
call mutates the caller's input tensor in place (`input->Padding(...)`), so
the input list after the call differs from the one passed in. -/
theorem c1_counterexample :
    (ConvolutionLayer.Forward c1Layer [c1Input] []).2.1 ≠ [c1Input] := by
  intro hEq
  have h1 : ((ConvolutionLayer.Forward c1Layer [c1Input] []).2.1.headD
      (zeroTensor 0 0 0)).rows = 3 := rfl
  rw [hEq] at h1
  simp [c1Input] at h1

/-- Claim C1, amended: when the layer's `padding` is `0`, `Forward` leaves
the caller's input tensors unchanged (with `padding > 0` each processed input
is replaced in place by its zero-padded version). -/
theorem c1_theorem (layer : ConvolutionLayer) (inputs outputs : List Tensor)
    (hp : layer.padding = 0) :
    (ConvolutionLayer.Forward layer inputs outputs).2.1 = inputs := by
  unfold ConvolutionLayer.Forward
  split
  · rfl
  · split
    · rfl
    · split
      · rfl
      · exact forwardBatch_inputs_id layer hp inputs

/-- Claim C1, witness: the padding-0 layer `c1wLayer` leaves its input list
unchanged. -/
theorem c1_witness :
    (ConvolutionLayer.Forward c1wLayer [c1Input] []).2.1 = [c1Input] :=
  c1_theorem c1wLayer [c1Input] [] rfl

/-- Claim C2, counterexample to the claim as stated: for an input whose
channel count (2) differs from the weight kernel's channel count (3) AND
whose computed output size is zero, `Forward` fails with the output-size
signal, not the channel-mismatch signal: the output-size check precedes the
channel check in the kernel loop. -/
theorem c2_counterexample :
    (ConvolutionLayer.Forward c2Layer [c2Input] []).1
        = InferStatus.kInferFailedOutputSizeError ∧
      (c2Layer.weights.headD (zeroTensor 0 0 0)).channels ≠ c2Input.channels ∧
      (ConvolutionLayer.Forward c2Layer [c2Input] []).1
        ≠ InferStatus.kInferFailedChannelParameterError :=
  ⟨rfl, by decide, by decide⟩

/-- Claim C2, amended: the entry checks run in the order empty inputs, empty
weights, bias/weight mismatch; inside the per-input, per-kernel loop the
output-size check precedes the channel check, so an input that violates both
fails with `kInferFailedOutputSizeError`. -/
theorem c2_theorem (layer : ConvolutionLayer) (inp : Tensor) (rest outputs : List Tensor)
    (k0 : Tensor) (ks : List Tensor) (hw : layer.weights = k0 :: ks)
    (hb : ¬ (layer.use_bias = true ∧ layer.bias.length ≠ layer.weights.length))
    (hsize : outDim (paddedInput layer inp).rows k0.rows layer.stride = 0 ∨
      outDim (paddedInput layer inp).cols k0.cols layer.stride = 0)
    (_hch : k0.channels ≠ (paddedInput layer inp).channels) :
    (ConvolutionLayer.Forward layer (inp :: rest) outputs).1
      = InferStatus.kInferFailedOutputSizeError := by
  rw [Forward_eq_batch layer (inp :: rest) outputs rfl (by simp [hw]) hb]
  rw [forwardBatch_cons_err layer inp rest InferStatus.kInferFailedOutputSizeError
    (by rw [hw]; exact itemCheck_cons_size _ _ _ _ _ _ hsize)]

/-- Claim C2, witness: the amended ordering statement applied to the concrete
mismatching input `c2Input` against `c2Layer`. -/
theorem c2_witness :
    (ConvolutionLayer.Forward c2Layer [c2Input] []).1
      = InferStatus.kInferFailedOutputSizeError :=
  c2_theorem c2Layer c2Input [] [] (zeroTensor 3 3 3) [] rfl (by decide)
    (by decide) (by decide)

/-- Claim C3, evaluation at the failing input: with a 1×1 input and a 3×3
kernel (stride 1, padding 0) the mathematically negative output height
`(1 - 3)/1 + 1` wraps in `uint32_t` arithmetic to `4294967295`, the
`output_h <= 0` test does not fire, and `Forward` does not return the
output-size failure. -/
theorem c3_theorem :
    (ConvolutionLayer.Forward c3Layer [c3Input] []).1 = InferStatus.kInferSuccess ∧
      outDim (c3Input.rows + 2 * c3Layer.padding) 3 1 = 4294967295 :=
  ⟨rfl, by decide⟩

/-- Claim C4, counterexample to the claim as stated: a batch whose second
item mismatches produces the channel-mismatch status with one output already
appended for the first, valid item — not an empty outputs sequence. -/
theorem c4_counterexample :
    (ConvolutionLayer.Forward c4Layer [c4Input1, c4Input2] []).1
        = InferStatus.kInferFailedChannelParameterError ∧
      (ConvolutionLayer.Forward c4Layer [c4Input1, c4Input2] []).2.2.length = 1 :=
  ⟨rfl, rfl⟩

/-- Claim C4, amended: when the first batch item triggers the channel
mismatch (its computed output sizes being nonzero), `Forward` fails with
`kInferFailedChannelParameterError` and appends nothing to `outputs`; in
general a mismatch at item `i` leaves the outputs of items `0..i-1` appended. -/
theorem c4_theorem (layer : ConvolutionLayer) (inp : Tensor) (rest outputs : List Tensor)
    (k0 : Tensor) (ks : List Tensor) (hw : layer.weights = k0 :: ks)
    (hb : ¬ (layer.use_bias = true ∧ layer.bias.length ≠ layer.weights.length))
    (hh : outDim (paddedInput layer inp).rows k0.rows layer.stride ≠ 0)
    (hwid : outDim (paddedInput layer inp).cols k0.cols layer.stride ≠ 0)
    (hch : k0.channels ≠ (paddedInput layer inp).channels) :
    (ConvolutionLayer.Forward layer (inp :: rest) outputs).1
        = InferStatus.kInferFailedChannelParameterError ∧
      (ConvolutionLayer.Forward layer (inp :: rest) outputs).2.2 = outputs := by
  rw [Forward_eq_batch layer (inp :: rest) outputs rfl (by simp [hw]) hb]
  rw [forwardBatch_cons_err layer inp rest InferStatus.kInferFailedChannelParameterError
    (by rw [hw]; exact itemCheck_cons_channel _ _ _ _ _ _ hh hwid hch)]
  exact ⟨rfl, List.append_nil outputs⟩

/-- Claim C4, witness: a single-item batch whose only item mismatches yields
the channel-mismatch status and leaves `outputs` empty. -/
theorem c4_witness :
    (ConvolutionLayer.Forward c4Layer [c4Input2] []).1
        = InferStatus.kInferFailedChannelParameterError ∧
      (ConvolutionLayer.Forward c4Layer [c4Input2] []).2.2 = [] :=
  c4_theorem c4Layer c4Input2 [] [] (zeroTensor 2 1 1) [] rfl (by decide)
    (by decide) (by decide) (by decide)

/-- Claim C5: for a layer constructed with positive kernel dimensions and a
valid input (kernel fits inside the post-padding input, channel counts
agree, dimensions below `2^32`), `Forward` succeeds and every produced
output tensor has spatial dimensions
`(H + 2p - kernel_h)/stride + 1` by `(W + 2p - kernel_w)/stride + 1`. -/
theorem c5_theorem (oc ic kh kw p s : Nat) (ub : Bool) (inp : Tensor)
    (hoc : 0 < oc) (hkh : 0 < kh) (hkw : 0 < kw)
    (hch : inp.channels = ic)
    (hh : kh ≤ inp.rows + 2 * p) (hw : kw ≤ inp.cols + 2 * p)
    (hhU : inp.rows + 2 * p < U32) (hwU : inp.cols + 2 * p < U32) :
    (ConvolutionLayer.Forward (ConvolutionLayer.construct oc ic kh kw p s ub) [inp] []).1
        = InferStatus.kInferSuccess ∧
      ∀ t ∈ (ConvolutionLayer.Forward (ConvolutionLayer.construct oc ic kh kw p s ub)
          [inp] []).2.2,
        t.rows = (inp.rows + 2 * p - kh) / s + 1 ∧
          t.cols = (inp.cols + 2 * p - kw) / s + 1 := by
  set L := ConvolutionLayer.construct oc ic kh kw p s ub with hL
  have hwrep : L.weights = List.replicate oc (zeroTensor ic kh kw) := by
    simp [hL, ConvolutionLayer.construct]
  have hst : L.stride = s := by simp [hL, ConvolutionLayer.construct]
  have hpd : L.padding = p := by simp [hL, ConvolutionLayer.construct]
  have hwne : L.weights.isEmpty = false := by
    rw [hwrep]
    cases oc with
    | zero => omega
    | succ m => rfl
  have hbne : ¬ (L.use_bias = true ∧ L.bias.length ≠ L.weights.length) := by
    cases ub with
    | false => simp [hL, ConvolutionLayer.construct]
    | true => simp [hL, ConvolutionLayer.construct]
  have hpr : (paddedInput L inp).rows = inp.rows + 2 * p := by
    rw [paddedInput_rows, hpd]
  have hpc : (paddedInput L inp).cols = inp.cols + 2 * p := by
    rw [paddedInput_cols, hpd]
  have hpch : (paddedInput L inp).channels = ic := by
    rw [paddedInput_channels, hch]
  have hic : itemCheck L.stride (paddedInput L inp).rows (paddedInput L inp).cols
      (paddedInput L inp).channels L.weights = none := by
    rw [hwrep, hpr, hpc, hpch]
    apply itemCheck_replicate
    · show outDim (inp.rows + 2 * p) kh L.stride ≠ 0
      exact outDim_ne_zero hkh hh hhU
    · show outDim (inp.cols + 2 * p) kw L.stride ≠ 0
      exact outDim_ne_zero hkw hw hwU
    · rfl
  have hk0 : L.weights.headD (zeroTensor 0 0 0) = zeroTensor ic kh kw := by
    rw [hwrep]
    cases oc with
    | zero => omega
    | succ m => rw [List.replicate_succ]; rfl
  rw [Forward_eq_batch L [inp] [] rfl hwne hbne, forwardBatch_cons_ok L inp [] hic]
  refine ⟨rfl, ?_⟩
  intro t ht
  have ht2 : t = itemOutput L (paddedInput L inp) := by
    simpa [forwardBatch] using ht
  subst ht2
  constructor
  · show outDim (paddedInput L inp).rows (L.weights.headD (zeroTensor 0 0 0)).rows
        L.stride = (inp.rows + 2 * p - kh) / s + 1
    rw [hk0, hpr, hst]
    exact outDim_eq hkh hh hhU
  · show outDim (paddedInput L inp).cols (L.weights.headD (zeroTensor 0 0 0)).cols
        L.stride = (inp.cols + 2 * p - kw) / s + 1
    rw [hk0, hpc, hst]
    exact outDim_eq hkw hw hwU

/-- Claim C5, witness: the spec's test vector `H = 5`, 3×3 kernel,
`stride = 1`, `padding = 0` gives output height and width 3. -/
theorem c5_witness :
    (ConvolutionLayer.Forward c5wLayer [c5wInput] []).1 = InferStatus.kInferSuccess ∧
      ∀ t ∈ (ConvolutionLayer.Forward c5wLayer [c5wInput] []).2.2,
        t.rows = 3 ∧ t.cols = 3 := by
  have h := c5_theorem 1 1 3 3 0 1 false c5wInput (by decide) (by decide) (by decide)
    rfl (by decide) (by decide) (by decide) (by decide)
  simpa [c5wLayer, c5wInput] using h

/-- Claim C6: the spec's scalar test — a 1×1×1 layer with weight 2 and bias
1 maps the single input value 3 to the single output value `3*2 + 1 = 7`. -/
theorem c6_theorem :
    (ConvolutionLayer.Forward c6Layer [c6Input] []).1 = InferStatus.kInferSuccess ∧
      (ConvolutionLayer.Forward c6Layer [c6Input] []).2.2.length = 1 ∧
      ((ConvolutionLayer.Forward c6Layer [c6Input] []).2.2.headD
          (zeroTensor 0 0 0)).rows = 1 ∧
      ((ConvolutionLayer.Forward c6Layer [c6Input] []).2.2.headD
          (zeroTensor 0 0 0)).cols = 1 ∧
      ((ConvolutionLayer.Forward c6Layer [c6Input] []).2.2.headD
          (zeroTensor 0 0 0)).data 0 0 0 = 7 := by
  refine ⟨rfl, rfl, rfl, rfl, ?_⟩
  norm_num [ConvolutionLayer.Forward, forwardBatch, paddedInput, itemCheck, itemOutput,
    convPart, biasPart, sumRange, c6Layer, c6Input, ConvolutionLayer.construct,
    ConvolutionLayer.set_bias, ConvolutionLayer.set_weights, setBiasFrom, setWeightsFrom,
    outDim, u32sub, U32, zeroTensor]

/-- Claim C7: the constructor establishes the §3 shape invariants —
`weights.length = output_channel`, each weight tensor of shape
`(in_channel, kernel_h, kernel_w)`, `bias` matching `weights` in length with
`(1,1,1)` tensors when `use_bias` and empty otherwise — and the builder's
value-loading steps (`set_bias` then `set_weights`) keep them. -/
theorem c7_theorem (oc ic kh kw p s : Nat) (ub : Bool) (bv wv : List ℚ) :
    layerInv oc ic kh kw ub (ConvolutionLayer.construct oc ic kh kw p s ub) ∧
      layerInv oc ic kh kw ub
        (((ConvolutionLayer.construct oc ic kh kw p s ub).set_bias bv).set_weights wv) :=
  ⟨layerInv_construct oc ic kh kw p s ub,
    layerInv_set_weights oc ic kh kw ub _ wv
      (layerInv_set_bias oc ic kh kw ub _ bv (layerInv_construct oc ic kh kw p s ub))⟩

/-- Claim C8: each of the six required parameters is validated (presence and
variant tag together) in source order, and the first one that is missing or
mistyped determines the parameter-specific failure status: `in_channels`,
`out_channels`, `padding`, `bias`, `stride`, `kernel_size` each map to their
own `kParameterMissing...` value. -/
theorem c8_theorem (params : List (String × RuntimeParameter))
    (attrs : List (String × RuntimeAttribute)) :
    (asInt (params.lookup "in_channels") = none →
      (ConvolutionLayer.GetInstance params attrs).1
        = ParseParameterAttrStatus.kParameterMissingInChannel) ∧
    (∀ a, asInt (params.lookup "in_channels") = some a →
      asInt (params.lookup "out_channels") = none →
      (ConvolutionLayer.GetInstance params attrs).1
        = ParseParameterAttrStatus.kParameterMissingOutChannel) ∧
    (∀ a b, asInt (params.lookup "in_channels") = some a →
      asInt (params.lookup "out_channels") = some b →
      asIntArray (params.lookup "padding") = none →
      (ConvolutionLayer.GetInstance params attrs).1
        = ParseParameterAttrStatus.kParameterMissingPadding) ∧
    (∀ a b pd, asInt (params.lookup "in_channels") = some a →
      asInt (params.lookup "out_channels") = some b →
      asIntArray (params.lookup "padding") = some pd →
      asBool (params.lookup "bias") = none →
      (ConvolutionLayer.GetInstance params attrs).1
        = ParseParameterAttrStatus.kParameterMissingUseBias) ∧
    (∀ a b pd ub, asInt (params.lookup "in_channels") = some a →
      asInt (params.lookup "out_channels") = some b →
      asIntArray (params.lookup "padding") = some pd →
      asBool (params.lookup "bias") = some ub →
      asIntArray (params.lookup "stride") = none →
      (ConvolutionLayer.GetInstance params attrs).1
        = ParseParameterAttrStatus.kParameterMissingStride) ∧
    (∀ a b pd ub st, asInt (params.lookup "in_channels") = some a →
      asInt (params.lookup "out_channels") = some b →
      asIntArray (params.lookup "padding") = some pd →
      asBool (params.lookup "bias") = some ub →
      asIntArray (params.lookup "stride") = some st →
      asIntArray (params.lookup "kernel_size") = none →
      (ConvolutionLayer.GetInstance params attrs).1
        = ParseParameterAttrStatus.kParameterMissingKernel) := by
  refine ⟨?_, ?_, ?_, ?_, ?_, ?_⟩
  · intro h1
    simp [ConvolutionLayer.GetInstance, h1]
  · intro a h1 h2
    simp [ConvolutionLayer.GetInstance, h1, h2]
  · intro a b h1 h2 h3
    simp [ConvolutionLayer.GetInstance, h1, h2, h3]
  · intro a b pd h1 h2 h3 h4
    simp [ConvolutionLayer.GetInstance, h1, h2, h3, h4]
  · intro a b pd ub h1 h2 h3 h4 h5
    simp [ConvolutionLayer.GetInstance, h1, h2, h3, h4, h5]
  · intro a b pd ub st h1 h2 h3 h4 h5 h6
    simp [ConvolutionLayer.GetInstance, h1, h2, h3, h4, h5, h6]

/-- Claim C8, witness: with an empty parameter map the builder fails with
the `in_channels`-specific status. -/
theorem c8_witness :
    (ConvolutionLayer.GetInstance [] []).1
      = ParseParameterAttrStatus.kParameterMissingInChannel :=
  (c8_theorem [] []).1 rfl

/-- Claim C9: once the six parameters validate (and the `CHECK`ed array
lengths are 2), the `bias` attribute key is required unconditionally — for
any value of the `bias` boolean parameter, including `false` — and a missing
key, an empty shape, or `shape[0] ≠ out_channels` all yield
`kParameterMissingAttrBias`. -/
theorem c9_theorem (params : List (String × RuntimeParameter))
    (attrs : List (String × RuntimeAttribute)) (ic oc : Int)
    (pd st ks : List Int) (b : Bool)
    (h1 : asInt (params.lookup "in_channels") = some ic)
    (h2 : asInt (params.lookup "out_channels") = some oc)
    (h3 : asIntArray (params.lookup "padding") = some pd)
    (h4 : asBool (params.lookup "bias") = some b)
    (h5 : asIntArray (params.lookup "stride") = some st)
    (h6 : asIntArray (params.lookup "kernel_size") = some ks)
    (hk : ks.length = 2) (hs : st.length = 2) (hp : pd.length = 2)
    (hbias : biasAttrBad oc (attrs.lookup "bias") = true) :
    (ConvolutionLayer.GetInstance params attrs).1
      = ParseParameterAttrStatus.kParameterMissingAttrBias := by
  simp only [ConvolutionLayer.GetInstance, h1, h2, h3, h4, h5, h6]
  rw [if_neg (by simp [hk, hs, hp])]
  cases hl : attrs.lookup "bias" with
  | none => simp [hl]
  | some battr =>
    rw [hl] at hbias
    simp only [biasAttrBad] at hbias
    have hbias2 : battr.shape = [] ∨ ¬battr.shape.head?.getD 0 = oc := by
      simpa using hbias
    simp [hl, hbias2]

/-- Claim C9, witness: all six parameters valid with the `bias` parameter
`false`, yet an attribute map without the `bias` key fails with the
bias-attribute status. -/
theorem c9_witness :
    (ConvolutionLayer.GetInstance c9wParams []).1
      = ParseParameterAttrStatus.kParameterMissingAttrBias :=
  c9_theorem c9wParams [] 1 1 [0, 0] [1, 1] [3, 3] false rfl rfl rfl rfl rfl rfl
    rfl rfl rfl rfl

/-- Claim C10: `Forward` appends to the caller's `outputs` vector without
clearing it: on a successful call over `N` inputs with `M` pre-existing
elements, `outputs` afterwards has `M + N` elements and its first `M`
elements are the original ones, unchanged and in order. -/
theorem c10_theorem (layer : ConvolutionLayer) (inputs outputs : List Tensor)
    (h : (ConvolutionLayer.Forward layer inputs outputs).1 = InferStatus.kInferSuccess) :
    (ConvolutionLayer.Forward layer inputs outputs).2.2.length
        = outputs.length + inputs.length ∧
      (ConvolutionLayer.Forward layer inputs outputs).2.2.take outputs.length
        = outputs := by
  by_cases h1 : inputs.isEmpty = true
  · rw [ConvolutionLayer.Forward, if_pos h1] at h
    simp at h
  · replace h1 : inputs.isEmpty = false := by simpa using h1
    by_cases h2 : layer.weights.isEmpty = true
    · rw [ConvolutionLayer.Forward, if_neg (by simp [h1]), if_pos h2] at h
      simp at h
    · replace h2 : layer.weights.isEmpty = false := by simpa using h2
      by_cases h3 : layer.use_bias = true ∧ layer.bias.length ≠ layer.weights.length
      · rw [ConvolutionLayer.Forward, if_neg (by simp [h1]), if_neg (by simp [h2]),
          if_pos h3] at h
        simp at h
      · rw [Forward_eq_batch layer inputs outputs h1 h2 h3] at h ⊢
        have hlen := forwardBatch_success_len layer inputs h
        constructor
        · simp [hlen]
        · exact List.take_left outputs _

/-- Claim C10, witness: a valid single-input call on an `outputs` vector
already holding one element yields two elements with the original one first. -/
theorem c10_witness :
    (ConvolutionLayer.Forward c1wLayer [c1Input] [c10wOld]).2.2.length
        = [c10wOld].length + [c1Input].length ∧
      (ConvolutionLayer.Forward c1wLayer [c1Input] [c10wOld]).2.2.take
          [c10wOld].length = [c10wOld] :=
  c10_theorem c1wLayer [c1Input] [c10wOld] rfl
